import Mathlib

/-!
Verification of the filtering, thresholding and aggregation pipeline of the
Sugar Trap market-gap dashboard (src/app.py), as a shallow embedding.

Tabular data is modelled with lists of records; pandas boolean-mask
selection is List.filter; machine floats of the nutrient columns are
modelled as exact rationals.
-/

set_option maxRecDepth 40000

namespace MarketGap

/-- One row of the categorized_products table (section 3 of the spec, and
the columns src/app.py reads).  The derived flag column is stored on every
row; whether the column is actually present in the table is recorded at
table level, mirroring the pandas test
  if df is not None and the flag column is not in df.columns. -/
structure Row where
  product_name : String
  primary_category : String
  brands : Option String
  proteins_100g : ℚ
  sugars_100g : ℚ
  fat_100g : Option ℚ
  is_high_protein_low_sugar : Bool
deriving DecidableEq, Repr

/-- A pandas DataFrame of product rows: the row list in order, plus whether
the derived flag column is present (pandas column membership test). -/
structure DataFrame where
  flagColumnPresent : Bool
  rows : List Row
deriving DecidableEq, Repr

/-- Embedding of the sidebar filter, src/app.py lines 164-172:
if no category is selected the code takes df.copy() unchanged; otherwise it
keeps the rows of the conjunctive boolean mask
  isin(selected_categories) and sugars_100g <= sugar_max
  and proteins_100g >= protein_min. -/
def filterDf (df : DataFrame) (selected_categories : List String)
    (sugar_max protein_min : ℚ) : DataFrame :=
  if selected_categories.length = 0 then df
  else
    { flagColumnPresent := df.flagColumnPresent,
      rows := df.rows.filter fun r =>
        decide (r.primary_category ∈ selected_categories)
        && decide (r.sugars_100g ≤ sugar_max)
        && decide (r.proteins_100g ≥ protein_min) }

/-- A concrete row used in counterexamples: 5 g sugar, 0 g protein. -/
def rowSugary : Row :=
  { product_name := "sugary snack", primary_category := "bars",
    brands := none, proteins_100g := 0, sugars_100g := 5,
    fat_100g := none, is_high_protein_low_sugar := false }

/-- A one-row table containing rowSugary, flag column present. -/
def dfSugary : DataFrame := ⟨true, [rowSugary]⟩

/-- Claim C1, counterexample.  With an empty category selection and
sugar_max = 0 the claim demands that only rows with sugars_100g ≤ 0
survive, but the code returns the whole table unchanged: the retained row
has sugars_100g = 5 > 0.  So the nutrient predicates are NOT applied when
selected_categories is empty. -/
theorem claim_C1_counterexample :
    filterDf dfSugary [] 0 0 = dfSugary ∧
    ¬ (∀ r ∈ (filterDf dfSugary [] 0 0).rows, r.sugars_100g ≤ 0) := by
  constructor
  · rfl
  · decide

/-- Claim C1 (amended): if selected_categories is empty the filter returns
the input table unchanged (the whole table, regardless of sugar_max and
protein_min); if it is non-empty, a row is retained iff its category is
selected and sugars_100g ≤ sugar_max and proteins_100g ≥ protein_min, and
the surviving rows keep their original relative order (the result is a
sublist of the input). -/
theorem claim_C1_filter (df : DataFrame) (cats : List String)
    (sugar_max protein_min : ℚ) :
    (cats = [] → filterDf df cats sugar_max protein_min = df) ∧
    (cats ≠ [] →
      (filterDf df cats sugar_max protein_min).rows.Sublist df.rows ∧
      (filterDf df cats sugar_max protein_min).flagColumnPresent
        = df.flagColumnPresent ∧
      ∀ r, r ∈ (filterDf df cats sugar_max protein_min).rows ↔
        r ∈ df.rows ∧ r.primary_category ∈ cats ∧
        r.sugars_100g ≤ sugar_max ∧ protein_min ≤ r.proteins_100g) := by
  constructor
  · intro h
    simp [filterDf, h]
  · intro h
    have hlen : ¬ cats.length = 0 := by simpa using h
    refine ⟨?_, ?_, ?_⟩
    · simp only [filterDf, if_neg hlen]
      exact List.filter_sublist _
    · simp [filterDf, hlen]
    · intro r
      simp only [filterDf, if_neg hlen, List.mem_filter, Bool.and_eq_true,
        decide_eq_true_eq, ge_iff_le]
      tauto

/-- Claim C1 witness: the amended filter theorem applied at a concrete
non-empty selection. -/
theorem claim_C1_witness :
    ([("bars" : String)] ≠ []) ∧
    (filterDf dfSugary ["bars"] 10 0).rows.Sublist dfSugary.rows := by
  refine ⟨by decide, ?_⟩
  exact ((claim_C1_filter dfSugary ["bars"] 10 0).2 (by decide)).1

/-- Outcome of looking an artifact up in the ZIP archive: the member name is
absent from zipf.namelist(), or it is present but reading or parsing it
raises (pandas read_csv failure, UTF-8 decode failure, ...), or it parses
to a value. -/
inductive ParseResult (α : Type) where
  | missing : ParseResult α
  | malformed : String → ParseResult α
  | ok : α → ParseResult α
deriving DecidableEq, Repr

/-- The six artifacts of categorized_products.zip, in the order
load_all_data_from_zip reads them (src/app.py lines 39-86). -/
structure ZipSource where
  products : ParseResult DataFrame
  thresholds : ParseResult (List (String × ℚ))
  protein_sources : ParseResult (List (String × ℕ))
  category_summary : ParseResult (List (String × ℕ × ℕ × ℚ))
  brand_leaderboard : ParseResult (List (String × ℚ))
  recommendation : ParseResult String
deriving DecidableEq, Repr

/-- The dictionary load_all_data_from_zip returns (src/app.py line 31,
lines 108-121), with None modelled as Option.none. -/
structure LoadedData where
  df : Option DataFrame
  protein_threshold : Option ℚ
  sugar_threshold : Option ℚ
  protein_sources_df : Option (List (String × ℕ))
  category_summary_df : Option (List (String × ℕ × ℕ × ℚ))
  brand_df : Option (List (String × ℚ))
  recommendation_text : String
deriving DecidableEq, Repr

/-- The literal fallback used when recommendation.txt is not in the ZIP
(src/app.py line 86). -/
def fallbackRecommendation : String :=
  "Recommendation not available. Run the analysis cells first."

/-- thresholds_df[thresholds_df[metric-column] == m][value-column].values[0]
(src/app.py lines 51-53): the value of the first row whose metric equals m;
an empty selection raises IndexError. -/
def lookupMetric (t : List (String × ℚ)) (m : String) : Except String ℚ :=
  match (t.filter fun r => r.1 = m).head? with
  | some r => Except.ok r.2
  | none => Except.error "index 0 is out of bounds"

/-- Reading one artifact inside the try block: a missing member takes the
documented fallback and the load goes on; a read or parse failure raises
out of the whole try block. -/
def readArt {α β : Type} (x : ParseResult α) (onMissing : β)
    (onOk : α → Except String β) : Except String β :=
  match x with
  | ParseResult.missing => Except.ok onMissing
  | ParseResult.malformed m => Except.error m
  | ParseResult.ok v => onOk v

/-- The thresholds block (src/app.py lines 48-58): both metric values are
extracted when the file is present, both dictionary entries stay None when
it is absent. -/
def readThresholds (x : ParseResult (List (String × ℚ))) :
    Except String (Option ℚ × Option ℚ) :=
  readArt x (none, none) fun t =>
    (lookupMetric t "high_protein_threshold").bind fun p =>
    (lookupMetric t "low_sugar_threshold").map fun s => (some p, some s)

/-- The body of the try block of load_all_data_from_zip: the six artifacts
are read in program order; the first raising read aborts the whole block. -/
def readAllArtifacts (src : ZipSource) : Except String LoadedData :=
  (readArt src.products none fun t => Except.ok (some t)).bind fun df0 =>
  (readThresholds src.thresholds).bind fun pst =>
  (readArt src.protein_sources none fun t => Except.ok (some t)).bind fun ps =>
  (readArt src.category_summary none fun t => Except.ok (some t)).bind fun cs =>
  (readArt src.brand_leaderboard none fun t => Except.ok (some t)).bind fun bd =>
  (readArt src.recommendation fallbackRecommendation fun s => Except.ok s).bind
    fun rec =>
      Except.ok
        { df := df0, protein_threshold := pst.1, sugar_threshold := pst.2,
          protein_sources_df := ps, category_summary_df := cs, brand_df := bd,
          recommendation_text := rec }

/-- The except-Exception branch (src/app.py lines 98-106): every entry of
the dictionary is reset to None and the recommendation becomes the error
message. -/
def errorLoadData (msg : String) : LoadedData :=
  { df := none, protein_threshold := none, sugar_threshold := none,
    protein_sources_df := none, category_summary_df := none, brand_df := none,
    recommendation_text := "Error loading data: " ++ msg }

/-- The except-FileNotFoundError branch (src/app.py lines 88-97). -/
def fileNotFoundData : LoadedData :=
  { df := none, protein_threshold := none, sugar_threshold := none,
    protein_sources_df := none, category_summary_df := none, brand_df := none,
    recommendation_text := "Data files not found." }

/-- load_all_data_from_zip (src/app.py lines 29-108): open the ZIP
(FileNotFoundError if absent), run the six reads, and on any exception
fall to the handler that wipes the whole dictionary. -/
def load_all_data_from_zip (zipExists : Bool) (src : ZipSource) : LoadedData :=
  if zipExists then
    match readAllArtifacts src with
    | Except.ok d => d
    | Except.error m => errorLoadData m
  else fileNotFoundData

/-- Helper: inverting Except.bind when the chain succeeded. -/
theorem except_bind_ok {α β : Type} {x : Except String α}
    {f : α → Except String β} {b : β} (h : x.bind f = Except.ok b) :
    ∃ a, x = Except.ok a ∧ f a = Except.ok b := by
  cases x with
  | ok a => exact ⟨a, rfl, h⟩
  | error m => simp [Except.bind] at h

/-- Helper: a successful run of the try block reads every artifact
successfully and fills each dictionary entry with its value. -/
theorem readAllArtifacts_ok {src : ZipSource} {d : LoadedData}
    (h : readAllArtifacts src = Except.ok d) :
    readArt src.products none (fun t => Except.ok (some t)) = Except.ok d.df ∧
    readThresholds src.thresholds
      = Except.ok (d.protein_threshold, d.sugar_threshold) ∧
    readArt src.protein_sources none (fun t => Except.ok (some t))
      = Except.ok d.protein_sources_df ∧
    readArt src.category_summary none (fun t => Except.ok (some t))
      = Except.ok d.category_summary_df ∧
    readArt src.brand_leaderboard none (fun t => Except.ok (some t))
      = Except.ok d.brand_df ∧
    readArt src.recommendation fallbackRecommendation (fun s => Except.ok s)
      = Except.ok d.recommendation_text := by
  unfold readAllArtifacts at h
  obtain ⟨df0, h1, h⟩ := except_bind_ok h
  obtain ⟨pst, h2, h⟩ := except_bind_ok h
  obtain ⟨ps, h3, h⟩ := except_bind_ok h
  obtain ⟨cs, h4, h⟩ := except_bind_ok h
  obtain ⟨bd, h5, h⟩ := except_bind_ok h
  obtain ⟨rec, h6, h⟩ := except_bind_ok h
  cases h
  exact ⟨h1, h2, h3, h4, h5, h6⟩

/-- A raw, healthy example row (flag stored true). -/
def rowHealthy : Row :=
  { product_name := "protein bar", primary_category := "bars",
    brands := some "BrandA", proteins_100g := 20, sugars_100g := 2,
    fat_100g := some 9, is_high_protein_low_sugar := true }

/-- A small raw products table, flag column not yet present. -/
def dfPlain : DataFrame :=
  ⟨false, [{ rowHealthy with is_high_protein_low_sugar := false },
           { rowSugary with primary_category := "drinks" }]⟩

/-- The canonical two-row thresholds table (spec section 6). -/
def thrTable (p s : ℚ) : List (String × ℚ) :=
  [("high_protein_threshold", p), ("low_sugar_threshold", s)]

/-- Example payloads for the three remaining secondary artifacts. -/
def psOk : List (String × ℕ) := [("pea protein", 5)]

def csOk : List (String × ℕ × ℕ × ℚ) := [("bars", (10, 4, 40))]

def bdOk : List (String × ℚ) := [("BrandA", 50)]

/-- A source whose only defect is a malformed (present but unparsable)
thresholds member; the products table and all other artifacts are fine. -/
def srcThrBad : ZipSource :=
  { products := ParseResult.ok dfPlain,
    thresholds := ParseResult.malformed "pandas parser error",
    protein_sources := ParseResult.ok psOk,
    category_summary := ParseResult.ok csOk,
    brand_leaderboard := ParseResult.ok bdOk,
    recommendation := ParseResult.ok "Launch a low sugar bar." }

/-- Claim C3, counterexample.  srcThrBad has exactly one malformed
secondary artifact (thresholds) and a perfectly good products table, yet
the load does not succeed: the exception escapes the per-artifact reads,
the except branch wipes the whole dictionary (df becomes None, which the
script treats as total failure and halts on), and no other artifact is
returned as read. -/
theorem claim_C3_counterexample :
    load_all_data_from_zip true srcThrBad
      = errorLoadData "pandas parser error" ∧
    (load_all_data_from_zip true srcThrBad).df = none ∧
    srcThrBad.products = ParseResult.ok dfPlain := by
  exact ⟨rfl, rfl, rfl⟩

/-- Claim C3 (amended): only ABSENCE of a single secondary artifact is
recoverable: when exactly one secondary artifact is missing from the
archive and every present artifact reads cleanly, the load succeeds, every
other artifact is returned as read and only the missing one takes its
absence marker.  A present but malformed artifact instead aborts the whole
load: every entry is reset to None and the error text replaces the
recommendation. -/
theorem claim_C3_degraded (df : DataFrame) (p s : ℚ)
    (ps : List (String × ℕ)) (cs : List (String × ℕ × ℕ × ℚ))
    (bd : List (String × ℚ)) (rec : String) :
    (load_all_data_from_zip true
        ⟨ParseResult.ok df, ParseResult.missing, ParseResult.ok ps,
         ParseResult.ok cs, ParseResult.ok bd, ParseResult.ok rec⟩
      = { df := some df, protein_threshold := none, sugar_threshold := none,
          protein_sources_df := some ps, category_summary_df := some cs,
          brand_df := some bd, recommendation_text := rec }) ∧
    (load_all_data_from_zip true
        ⟨ParseResult.ok df, ParseResult.ok (thrTable p s), ParseResult.missing,
         ParseResult.ok cs, ParseResult.ok bd, ParseResult.ok rec⟩
      = { df := some df, protein_threshold := some p, sugar_threshold := some s,
          protein_sources_df := none, category_summary_df := some cs,
          brand_df := some bd, recommendation_text := rec }) ∧
    (load_all_data_from_zip true
        ⟨ParseResult.ok df, ParseResult.ok (thrTable p s), ParseResult.ok ps,
         ParseResult.missing, ParseResult.ok bd, ParseResult.ok rec⟩
      = { df := some df, protein_threshold := some p, sugar_threshold := some s,
          protein_sources_df := some ps, category_summary_df := none,
          brand_df := some bd, recommendation_text := rec }) ∧
    (load_all_data_from_zip true
        ⟨ParseResult.ok df, ParseResult.ok (thrTable p s), ParseResult.ok ps,
         ParseResult.ok cs, ParseResult.missing, ParseResult.ok rec⟩
      = { df := some df, protein_threshold := some p, sugar_threshold := some s,
          protein_sources_df := some ps, category_summary_df := some cs,
          brand_df := none, recommendation_text := rec }) ∧
    (load_all_data_from_zip true
        ⟨ParseResult.ok df, ParseResult.ok (thrTable p s), ParseResult.ok ps,
         ParseResult.ok cs, ParseResult.ok bd, ParseResult.missing⟩
      = { df := some df, protein_threshold := some p, sugar_threshold := some s,
          protein_sources_df := some ps, category_summary_df := some cs,
          brand_df := some bd,
          recommendation_text := fallbackRecommendation }) ∧
    (∀ src m, readAllArtifacts src = Except.error m →
      load_all_data_from_zip true src = errorLoadData m) := by
  refine ⟨rfl, rfl, rfl, rfl, rfl, ?_⟩
  intro src m h
  simp [load_all_data_from_zip, h]

/-- Claim C3 witness: the degraded-load theorem at concrete artifacts,
with the abort clause applied to the concrete malformed source. -/
theorem claim_C3_witness :
    (load_all_data_from_zip true
        ⟨ParseResult.ok dfPlain, ParseResult.missing, ParseResult.ok psOk,
         ParseResult.ok csOk, ParseResult.ok bdOk, ParseResult.ok "go"⟩
      = { df := some dfPlain, protein_threshold := none, sugar_threshold := none,
          protein_sources_df := some psOk, category_summary_df := some csOk,
          brand_df := some bdOk, recommendation_text := "go" }) ∧
    readAllArtifacts srcThrBad = Except.error "pandas parser error" ∧
    load_all_data_from_zip true srcThrBad
      = errorLoadData "pandas parser error" := by
  refine ⟨(claim_C3_degraded dfPlain 0 0 psOk csOk bdOk "go").1, rfl, ?_⟩
  exact (claim_C3_degraded dfPlain 0 0 psOk csOk bdOk "go").2.2.2.2.2
    srcThrBad "pandas parser error" rfl

/-- An artifact read that does not raise: the member is either absent or
parses. -/
def noParseFailure {α : Type} : ParseResult α → Prop
  | ParseResult.malformed _ => False
  | _ => True

/-- The thresholds member does not raise: absent, or present with both
metric rows found by the lookups. -/
def thresholdsReadable : ParseResult (List (String × ℚ)) → Prop
  | ParseResult.malformed _ => False
  | ParseResult.missing => True
  | ParseResult.ok t =>
      (∃ p, lookupMetric t "high_protein_threshold" = Except.ok p) ∧
      (∃ s, lookupMetric t "low_sugar_threshold" = Except.ok s)

/-- Claim C8: whenever recommendation.txt is missing from an otherwise
readable archive (no other artifact raises), the loader returns exactly
the literal fallback string. -/
theorem claim_C8_recommendation_fallback (src : ZipSource)
    (hp : noParseFailure src.products)
    (ht : thresholdsReadable src.thresholds)
    (hps : noParseFailure src.protein_sources)
    (hcs : noParseFailure src.category_summary)
    (hbd : noParseFailure src.brand_leaderboard)
    (hrec : src.recommendation = ParseResult.missing) :
    (load_all_data_from_zip true src).recommendation_text
      = "Recommendation not available. Run the analysis cells first." := by
  obtain ⟨a, b, c, d', e, f⟩ := src
  dsimp only at hp ht hps hcs hbd hrec
  subst hrec
  cases b with
  | malformed m => exact ht.elim
  | missing =>
      cases a <;> cases c <;> cases d' <;> cases e <;>
        first
          | exact hp.elim
          | exact hps.elim
          | exact hcs.elim
          | exact hbd.elim
          | rfl
  | ok t =>
      obtain ⟨⟨p, hp1⟩, ⟨s, hs1⟩⟩ := ht
      cases a <;> cases c <;> cases d' <;> cases e <;>
        first
          | exact hp.elim
          | exact hps.elim
          | exact hcs.elim
          | exact hbd.elim
          | simp [load_all_data_from_zip, readAllArtifacts, readArt,
              readThresholds, Except.bind, Except.map, hp1, hs1,
              fallbackRecommendation]

/-- Claim C8 witness: the fallback theorem at a concrete archive holding
only the products table. -/
theorem claim_C8_witness :
    (load_all_data_from_zip true
        ⟨ParseResult.ok dfPlain, ParseResult.missing, ParseResult.missing,
         ParseResult.missing, ParseResult.missing, ParseResult.missing⟩
      ).recommendation_text
      = "Recommendation not available. Run the analysis cells first." := by
  exact claim_C8_recommendation_fallback _ trivial trivial trivial trivial
    trivial rfl

/-- Series.quantile(q) with the pandas default linear interpolation between
order statistics (the method df.quantile uses at src/app.py lines 125-126):
sort the values, take position h = q * (n - 1), and interpolate linearly
between the neighbouring order statistics; an empty series gives NaN
(modelled as none). -/
def quantileLinear (q : ℚ) (l : List ℚ) : Option ℚ :=
  if l.length = 0 then none
  else
    let s := Multiset.sort (· ≤ ·) (l : Multiset ℚ)
    let h : ℚ := q * ((l.length : ℚ) - 1)
    let i : ℕ := Nat.floor h
    let g : ℚ := h - (i : ℚ)
    some (if g = 0 then s.getD i 0
          else s.getD i 0 + g * (s.getD (i + 1) 0 - s.getD i 0))

/-- src/app.py lines 124-126: if the thresholds could not be loaded
(protein_threshold is None) and the product table exists, compute the 70th
percentile of proteins_100g and the 30th percentile of sugars_100g over
the full unfiltered table; otherwise keep the loaded values. -/
def resolve_thresholds (d : LoadedData) : Option ℚ × Option ℚ :=
  match d.protein_threshold with
  | some p => (some p, d.sugar_threshold)
  | none =>
      match d.df with
      | some df =>
          (quantileLinear (70/100) (df.rows.map fun r => r.proteins_100g),
           quantileLinear (30/100) (df.rows.map fun r => r.sugars_100g))
      | none => (none, d.sugar_threshold)

/-- proteins_100g >= threshold as pandas evaluates it; a comparison against
NaN (an unresolved threshold, modelled none) is false. -/
def geOpt (x : ℚ) : Option ℚ → Bool
  | none => false
  | some t => decide (t ≤ x)

/-- sugars_100g <= threshold, NaN comparing false as in geOpt. -/
def leOpt (x : ℚ) : Option ℚ → Bool
  | none => false
  | some t => decide (x ≤ t)

/-- One row of the vectorized flag assignment of src/app.py lines 130-133:
the conjunction of the two threshold comparisons, written into the flag
column, all other columns untouched. -/
def flagWith (r : Row) (pt st0 : Option ℚ) : Row :=
  { r with is_high_protein_low_sugar :=
      geOpt r.proteins_100g pt && leOpt r.sugars_100g st0 }

/-- src/app.py lines 129-133: if the flag column is not already present,
add it as the conjunction of the two threshold comparisons; if it is
present the table is left exactly as loaded. -/
def annotate (df : DataFrame) (pt st0 : Option ℚ) : DataFrame :=
  if df.flagColumnPresent then df
  else ⟨true, df.rows.map fun r => flagWith r pt st0⟩

/-- The annotated product table the dashboard works with: load, resolve
thresholds, then add the health flag (src/app.py lines 112-133 in program
order). -/
def app_df (zipExists : Bool) (src : ZipSource) : Option DataFrame :=
  let d := load_all_data_from_zip zipExists src
  let ts := resolve_thresholds d
  d.df.map fun df => annotate df ts.1 ts.2

/-- A row with its derived flag column blanked, for frame statements. -/
def stripFlag (r : Row) : Row := { r with is_high_protein_low_sugar := false }

/-- Claim C2: on a table loaded without the flag column, annotation gives
every row (rows with null fat_100g included, fat never being read) the
flag (proteins_100g ≥ p) AND (sugars_100g ≤ s) with both comparisons
inclusive; no other column is touched, and once assigned the flag is never
mutated (re-running the annotation step, with any thresholds, is the
identity). -/
theorem claim_C2_flag_invariant (df : DataFrame) (p s : ℚ) (pt2 st2 : Option ℚ)
    (h : df.flagColumnPresent = false) :
    ((annotate df (some p) (some s)).rows.map
        fun r => r.is_high_protein_low_sugar)
      = (df.rows.map fun r =>
          decide (p ≤ r.proteins_100g ∧ r.sugars_100g ≤ s)) ∧
    (∀ r ∈ (annotate df (some p) (some s)).rows,
      r.is_high_protein_low_sugar = true ↔
        p ≤ r.proteins_100g ∧ r.sugars_100g ≤ s) ∧
    ((annotate df (some p) (some s)).rows.map stripFlag
      = df.rows.map stripFlag) ∧
    annotate (annotate df (some p) (some s)) pt2 st2
      = annotate df (some p) (some s) := by
  refine ⟨?_, ?_, ?_, ?_⟩
  · simp only [annotate, h, Bool.false_eq_true, if_false, List.map_map]
    refine List.map_congr_left fun r _ => ?_
    simp [flagWith, geOpt, leOpt, Function.comp]
  · intro r hr
    simp only [annotate, h, Bool.false_eq_true, if_false, List.mem_map] at hr
    obtain ⟨r0, _, rfl⟩ := hr
    simp [flagWith, geOpt, leOpt]
  · simp only [annotate, h, Bool.false_eq_true, if_false, List.map_map]
    refine List.map_congr_left fun r _ => ?_
    simp [flagWith, stripFlag, Function.comp]
  · simp [annotate, h]

/-- A row sitting exactly on both thresholds (10 g protein, 5 g sugar),
fat null. -/
def rowBoundary : Row :=
  { rowSugary with proteins_100g := 10, sugars_100g := 5 }

/-- A one-row table, flag column absent, holding rowBoundary. -/
def dfBoundary : DataFrame := ⟨false, [rowBoundary]⟩

/-- Claim C2 witness: the invariant theorem at a one-row table whose row
lies exactly on both thresholds (and has null fat), showing the inclusive
boundary yields the flag. -/
theorem claim_C2_witness :
    dfBoundary.flagColumnPresent = false ∧
    ((annotate dfBoundary (some 10) (some 5)).rows.map
        fun r => r.is_high_protein_low_sugar) = [true] := by
  refine ⟨rfl, ?_⟩
  have h := (claim_C2_flag_invariant dfBoundary 10 5 none none rfl).1
  rw [h]
  decide

/-- Claim C9: if the loaded table already has the flag column, the
annotation step is the identity: every value of every column, the flag
included, is kept exactly as loaded and nothing is recomputed from the
resolved thresholds. -/
theorem claim_C9_preserves_existing_flag (df : DataFrame) (pt st0 : Option ℚ)
    (h : df.flagColumnPresent = true) : annotate df pt st0 = df := by
  simp [annotate, h]

/-- A table loaded WITH a flag column whose stored value contradicts the
thresholds: the row is flagged true although its protein is far below any
positive threshold. -/
def dfStaleFlag : DataFrame :=
  ⟨true, [{ rowHealthy with proteins_100g := 0 }]⟩

/-- Claim C9 witness: the identity theorem at dfStaleFlag with thresholds
(10, 5); the stored flag true survives although the recomputed flag would
be false (0 is below the protein threshold 10). -/
theorem claim_C9_witness :
    annotate dfStaleFlag (some 10) (some 5) = dfStaleFlag ∧
    (dfStaleFlag.rows.map fun r => r.is_high_protein_low_sugar) = [true] ∧
    (dfStaleFlag.rows.map fun r => geOpt r.proteins_100g (some 10)
        && leOpt r.sugars_100g (some 5)) = [false] := by
  exact ⟨claim_C9_preserves_existing_flag dfStaleFlag _ _ rfl, rfl, by decide⟩

/-- Claim C5: if the thresholds artifact is present its two metric values
are taken verbatim as the resolved pair; if it is absent the resolved pair
is the 70th percentile of proteins_100g and the 30th percentile of
sugars_100g over the full unfiltered table, by linear interpolation
between order statistics, a function of the value multiset only; and the
health flag the pipeline computes uses exactly the resolved pair. -/
theorem claim_C5_thresholds :
    (∀ src d t p s, readAllArtifacts src = Except.ok d →
        src.thresholds = ParseResult.ok t →
        lookupMetric t "high_protein_threshold" = Except.ok p →
        lookupMetric t "low_sugar_threshold" = Except.ok s →
        d.protein_threshold = some p ∧ d.sugar_threshold = some s ∧
        resolve_thresholds d = (some p, some s)) ∧
    (∀ src d df, readAllArtifacts src = Except.ok d →
        src.thresholds = ParseResult.missing → d.df = some df →
        resolve_thresholds d
          = (quantileLinear (70/100) (df.rows.map fun r => r.proteins_100g),
             quantileLinear (30/100) (df.rows.map fun r => r.sugars_100g))) ∧
    (∀ q l1 l2, l1.Perm l2 → quantileLinear q l1 = quantileLinear q l2) ∧
    (∀ src df, (load_all_data_from_zip true src).df = some df →
        df.flagColumnPresent = false →
        app_df true src = some
          ⟨true, df.rows.map fun r =>
            flagWith r
              (resolve_thresholds (load_all_data_from_zip true src)).1
              (resolve_thresholds (load_all_data_from_zip true src)).2⟩) := by
  refine ⟨?_, ?_, ?_, ?_⟩
  · intro src d t p s hok ht hp hs
    have hthr := (readAllArtifacts_ok hok).2.1
    rw [ht] at hthr
    simp only [readThresholds, readArt, hp, hs, Except.bind, Except.map] at hthr
    obtain ⟨hpt, hst⟩ := Prod.mk.injEq .. ▸ (Except.ok.injEq .. ▸ hthr)
    refine ⟨hpt.symm, hst.symm, ?_⟩
    simp [resolve_thresholds, ← hpt, ← hst]
  · intro src d df hok ht hdf
    have hthr := (readAllArtifacts_ok hok).2.1
    rw [ht] at hthr
    simp only [readThresholds, readArt] at hthr
    obtain ⟨hpt, hst⟩ := Prod.mk.injEq .. ▸ (Except.ok.injEq .. ▸ hthr)
    simp [resolve_thresholds, ← hpt, hdf]
  · intro q l1 l2 hperm
    have hm : (l1 : Multiset ℚ) = (l2 : Multiset ℚ) :=
      Multiset.coe_eq_coe.mpr hperm
    have hl : l1.length = l2.length := hperm.length_eq
    simp only [quantileLinear, hm, hl]
  · intro src df hdf hflag
    simp [app_df, hdf, annotate, hflag]

/-- A source with a present, well-formed thresholds artifact. -/
def srcVerbatim : ZipSource :=
  { products := ParseResult.ok dfPlain,
    thresholds := ParseResult.ok (thrTable 10 5),
    protein_sources := ParseResult.missing,
    category_summary := ParseResult.missing,
    brand_leaderboard := ParseResult.missing,
    recommendation := ParseResult.missing }

/-- Claim C5 witness: verbatim resolution at srcVerbatim, and percentile
multiset-invariance at two permuted concrete lists. -/
theorem claim_C5_witness :
    resolve_thresholds (load_all_data_from_zip true srcVerbatim)
      = (some 10, some 5) ∧
    quantileLinear (1/2) [3, 1, 2] = quantileLinear (1/2) [2, 3, 1] := by
  constructor
  · have h := claim_C5_thresholds.1 srcVerbatim
      { df := some dfPlain, protein_threshold := some 10,
        sugar_threshold := some 5, protein_sources_df := none,
        category_summary_df := none, brand_df := none,
        recommendation_text := fallbackRecommendation }
      (thrTable 10 5) 10 5 rfl rfl rfl rfl
    exact h.2.2
  · exact claim_C5_thresholds.2.2.1 (1/2) [3, 1, 2] [2, 3, 1] (by decide)

/-- A numpy scalar that is either a number or NaN.  numpy true division of
a numpy integer by zero emits a warning and produces NaN; it does not
raise. -/
inductive PyNum where
  | nan : PyNum
  | val : ℚ → PyNum
deriving DecidableEq, Repr

/-- numpy true division: value / 0 is NaN, never an exception. -/
def npDiv (a b : ℚ) : PyNum :=
  if b = 0 then PyNum.nan else PyNum.val (a / b)

/-- Multiplication of a numpy scalar by a constant; NaN propagates. -/
def pyMul (x : PyNum) (c : ℚ) : PyNum :=
  match x with
  | PyNum.nan => PyNum.nan
  | PyNum.val q => PyNum.val (q * c)

/-- df[flag].sum() (src/app.py line 205): the number of rows whose health
flag is true. -/
def healthy_count (df : DataFrame) : ℕ :=
  (df.rows.filter fun r => r.is_high_protein_low_sugar).length

/-- healthy_count / len(df) * 100 (src/app.py line 206), with numpy
division semantics: the sum is a numpy integer, so a zero-row table gives
NaN rather than a ZeroDivisionError. -/
def healthy_pct (df : DataFrame) : PyNum :=
  pyMul (npDiv (healthy_count df : ℚ) (df.rows.length : ℚ)) 100

/-- A ZIP whose products member parses to a zero-row table (header only)
and which holds no other artifact. -/
def srcZeroRows : ZipSource :=
  { products := ParseResult.ok ⟨false, []⟩,
    thresholds := ParseResult.missing,
    protein_sources := ParseResult.missing,
    category_summary := ParseResult.missing,
    brand_leaderboard := ParseResult.missing,
    recommendation := ParseResult.missing }

/-- Claim C10: a present but zero-row products artifact loads
successfully (df is not None, so the script does not halt; only absence of
the member is fatal), the pipeline annotates it without error, and the
overall healthy-products metric evaluates to a value on every successfully
loaded table: a number for any non-empty table, and numpy NaN (not an
exception) on the zero-row one. -/
theorem claim_C10_zero_rows :
    (load_all_data_from_zip true srcZeroRows).df = some ⟨false, []⟩ ∧
    ((load_all_data_from_zip true srcZeroRows).df).isSome = true ∧
    app_df true srcZeroRows = some ⟨true, ([] : List Row)⟩ ∧
    healthy_pct ⟨true, []⟩ = PyNum.nan ∧
    (∀ df : DataFrame, df.rows ≠ [] →
      healthy_pct df
        = PyNum.val ((healthy_count df : ℚ) / (df.rows.length : ℚ) * 100) ∧
      0 ≤ (healthy_count df : ℚ) / (df.rows.length : ℚ) * 100 ∧
      (healthy_count df : ℚ) / (df.rows.length : ℚ) * 100 ≤ 100) := by
  refine ⟨rfl, rfl, rfl, rfl, ?_⟩
  intro df hne
  have hlen0 : df.rows.length ≠ 0 := by
    simpa [List.length_eq_zero] using hne
  have hlen : (0 : ℚ) < (df.rows.length : ℚ) := by
    exact_mod_cast Nat.pos_of_ne_zero hlen0
  have hcle : healthy_count df ≤ df.rows.length := by
    exact List.length_filter_le _ _
  have hfrac : (healthy_count df : ℚ) / (df.rows.length : ℚ) ≤ 1 := by
    rw [div_le_one hlen]
    exact_mod_cast hcle
  refine ⟨?_, ?_, ?_⟩
  · simp [healthy_pct, npDiv, pyMul, hlen.ne.symm]
  · positivity
  · nlinarith [hfrac]

/-- Claim C10 witness: the metric clause of the zero-row theorem applied
to the concrete one-healthy-row table. -/
theorem claim_C10_witness :
    ((⟨true, [rowHealthy]⟩ : DataFrame).rows ≠ []) ∧
    healthy_pct ⟨true, [rowHealthy]⟩ = PyNum.val 100 := by
  refine ⟨by decide, ?_⟩
  have h := (claim_C10_zero_rows.2.2.2.2 ⟨true, [rowHealthy]⟩ (by decide)).1
  rw [h]
  norm_num [healthy_count, rowHealthy]

/-- Round half to even, the numpy rounding rule behind Series.round. -/
def roundHalfEven (x : ℚ) : ℤ :=
  let f := Rat.floor x
  let r := x - (f : ℚ)
  if r < 1/2 then f
  else if 1/2 < r then f + 1
  else if Even f then f else f + 1

/-- Series.round(1) (src/app.py line 323): round to one decimal place. -/
def round1 (x : ℚ) : ℚ := ((roundHalfEven (10 * x) : ℤ) : ℚ) / 10

/-- df.groupby of primary_category (src/app.py line 319): the rows of one
category group, in original order. -/
def groupRows (df : DataFrame) (c : String) : List Row :=
  df.rows.filter fun r => r.primary_category = c

/-- total=(product_name, count) of one group (src/app.py line 320);
product_name is a non-null string column, so the count is the row count. -/
def gapTotal (df : DataFrame) (c : String) : ℕ := (groupRows df c).length

/-- healthy=(is_high_protein_low_sugar, sum) of one group (line 321). -/
def gapHealthy (df : DataFrame) (c : String) : ℕ :=
  ((groupRows df c).filter fun r => r.is_high_protein_low_sugar).length

/-- health_pct = (healthy / total * 100).round(1) (src/app.py line 323). -/
def gapHealthPct (df : DataFrame) (c : String) : ℚ :=
  round1 ((gapHealthy df c : ℚ) / (gapTotal df c : ℚ) * 100)

/-- When the fractional part is below one half, rounding half to even is
the floor. -/
theorem roundHalfEven_of_fract_lt (x : ℚ)
    (h : x - (Int.floor x : ℚ) < 1/2) : roundHalfEven x = Int.floor x := by
  have hRf : Rat.floor x = Int.floor x := by
    rw [Rat.floor_def', ← Rat.floor_def]
  simp only [roundHalfEven, hRf]
  rw [if_pos h]

/-- A one-category table with three rows of which exactly one is healthy:
the exact health ratio is 100/3 percent. -/
def dfThirds : DataFrame :=
  ⟨true, [{ rowHealthy with product_name := "p1" },
          { rowSugary with product_name := "p2" },
          { rowSugary with product_name := "p3" }]⟩

/-- Claim C6, counterexample.  On the recompute path the code rounds the
ratio to one decimal: for a group of 3 rows with 1 healthy the stored
health percentage is 33.3 while healthy / total * 100 is 100/3 =
33.333...; the difference is 1/30, far beyond the claimed 1e-6
tolerance. -/
theorem claim_C6_counterexample :
    gapTotal dfThirds "bars" = 3 ∧
    gapHealthy dfThirds "bars" = 1 ∧
    gapHealthPct dfThirds "bars" = 333/10 ∧
    ¬ |gapHealthPct dfThirds "bars"
        - (gapHealthy dfThirds "bars" : ℚ) / (gapTotal dfThirds "bars" : ℚ)
          * 100| ≤ 1/1000000 := by
  have e1 : gapTotal dfThirds "bars" = 3 := by decide
  have e2 : gapHealthy dfThirds "bars" = 1 := by decide
  have harg : (gapHealthy dfThirds "bars" : ℚ) / (gapTotal dfThirds "bars" : ℚ)
      * 100 = 100/3 := by
    rw [e1, e2]
    norm_num
  have hfl : Int.floor ((1000 : ℚ)/3) = 333 := by
    rw [Int.floor_eq_iff]
    constructor <;> norm_num
  have e3 : gapHealthPct dfThirds "bars" = 333/10 := by
    rw [gapHealthPct, harg, round1,
      show (10:ℚ) * (100/3) = 1000/3 by norm_num,
      roundHalfEven_of_fract_lt _ (by rw [hfl]; norm_num), hfl]
    norm_num
  refine ⟨e1, e2, e3, ?_⟩
  rw [e3, harg]
  have habs : |(333/10 : ℚ) - 100/3| = 1/30 := by
    rw [abs_sub_comm,
      abs_of_nonneg (by norm_num : (0:ℚ) ≤ 100/3 - 333/10)]
    norm_num
  rw [habs]
  norm_num

/-- Rounding half to even moves a rational by at most one half. -/
theorem roundHalfEven_abs_le (x : ℚ) : |(roundHalfEven x : ℚ) - x| ≤ 1/2 := by
  have hRf : Rat.floor x = Int.floor x := by
    rw [Rat.floor_def', ← Rat.floor_def]
  have hfl : (Int.floor x : ℚ) ≤ x := Int.floor_le x
  have hfu : x < (Int.floor x : ℚ) + 1 := Int.lt_floor_add_one x
  simp only [roundHalfEven, hRf]
  split_ifs with h1 h2 h3 <;>
    rw [abs_le] <;> constructor <;> push_cast <;> linarith

/-- Rounding to one decimal moves a rational by at most 1/20. -/
theorem round1_abs_le (x : ℚ) : |round1 x - x| ≤ 1/20 := by
  have h := roundHalfEven_abs_le (10 * x)
  rw [round1, abs_le] at *
  constructor <;> [linarith [h.1]; linarith [h.2]]

/-- Claim C6 (amended): for every non-empty category group of the full
table, total is the number of rows of the category, healthy the number of
those with the flag true, and the stored health percentage is
healthy / total * 100 rounded to ONE DECIMAL — it reproduces the exact
ratio only within 1/20 (0.05 percentage points), not within 1e-6. -/
theorem claim_C6_category_aggregation (df : DataFrame) (c : String)
    (h : 0 < gapTotal df c) :
    gapTotal df c = df.rows.countP (fun r => r.primary_category = c) ∧
    gapHealthy df c = df.rows.countP
      (fun r => r.is_high_protein_low_sugar
        && decide (r.primary_category = c)) ∧
    gapHealthy df c ≤ gapTotal df c ∧
    gapHealthPct df c
      = round1 ((gapHealthy df c : ℚ) / (gapTotal df c : ℚ) * 100) ∧
    |gapHealthPct df c
      - (gapHealthy df c : ℚ) / (gapTotal df c : ℚ) * 100| ≤ 1/20 := by
  refine ⟨?_, ?_, ?_, rfl, ?_⟩
  · rw [gapTotal, groupRows, ← List.countP_eq_length_filter]
  · rw [gapHealthy, groupRows, List.filter_filter,
      ← List.countP_eq_length_filter]
  · exact List.length_filter_le _ _
  · exact round1_abs_le _

/-- Claim C6 witness: the amended aggregation theorem at the concrete
three-row group. -/
theorem claim_C6_witness :
    0 < gapTotal dfThirds "bars" ∧
    |gapHealthPct dfThirds "bars"
      - (gapHealthy dfThirds "bars" : ℚ) / (gapTotal dfThirds "bars" : ℚ)
        * 100| ≤ 1/20 := by
  exact ⟨by decide,
    (claim_C6_category_aggregation dfThirds "bars" (by decide)).2.2.2.2⟩

/-!
The visualization sampler.  src/app.py line 231 is
  plot_sample = df_filtered.sample(min(2000, len(df_filtered)), random_state=42)
pandas sample with an integer random_state builds a fresh
numpy.random.RandomState(42) and, for sampling without replacement and no
weights, takes locs = rs.choice(n, size=k, replace=False)
= rs.permutation(n)[:k] and returns df.take(locs).  The RandomState legacy
generator is the Mersenne Twister MT19937 with the randomkit scalar
seeding, and permutation is an in-place Fisher-Yates shuffle of arange(n)
drawing bounded integers by masked rejection.  All of that is embedded
below; 32-bit words are naturals reduced modulo 2^32.
-/

/-- The constant 2^32. -/
def U32 : ℕ := 4294967296

/-- One step of the randomkit scalar seeding recurrence. -/
def mtNextSeed (s pos : ℕ) : ℕ :=
  (1812433253 * (s ^^^ (s >>> 30)) + pos + 1) % U32

/-- The 624-word key filled by rk_seed. -/
def mtSeedList : ℕ → ℕ → ℕ → List ℕ
  | 0, _, _ => []
  | n+1, pos, s => s :: mtSeedList n (pos + 1) (mtNextSeed s pos)

/-- Mersenne Twister state: the 624-word key and the read position. -/
structure MTState where
  key : List ℕ
  pos : ℕ
deriving Repr

/-- numpy.random.RandomState(seed) for a scalar integer seed: rk_seed
fills the key and sets the position past the end, so the first draw
regenerates. -/
def mtInit (seed : ℕ) : MTState := ⟨mtSeedList 624 0 (seed % U32), 624⟩

/-- One in-place step of the MT19937 state regeneration. -/
def twistStep (key : List ℕ) (i : ℕ) : List ℕ :=
  let y := (key.getD i 0 &&& 0x80000000) ||| (key.getD ((i+1) % 624) 0 &&& 0x7fffffff)
  let v := key.getD ((i+397) % 624) 0 ^^^ (y >>> 1)
    ^^^ (if y % 2 = 1 then 0x9908b0df else 0)
  key.set i v

/-- The full MT19937 regeneration pass, applied in place so that indices
227 and above read already-regenerated words. -/
def mtTwist (key : List ℕ) : List ℕ := (List.range 624).foldl twistStep key

/-- The MT19937 tempering of one output word. -/
def temper (y0 : ℕ) : ℕ :=
  let y1 := y0 ^^^ (y0 >>> 11)
  let y2 := y1 ^^^ ((y1 <<< 7) &&& 0x9d2c5680)
  let y3 := y2 ^^^ ((y2 <<< 15) &&& 0xefc60000)
  y3 ^^^ (y3 >>> 18)

/-- rk_random: one 32-bit draw, regenerating the key when exhausted. -/
def rkRandom (s : MTState) : ℕ × MTState :=
  if s.pos ≥ 624 then
    let k := mtTwist s.key
    (temper (k.getD 0 0), ⟨k, 1⟩)
  else
    (temper (s.key.getD s.pos 0), ⟨s.key, s.pos + 1⟩)

/-- The smallest all-ones mask covering a 32-bit bound (rk_interval). -/
def smallMask (m : ℕ) : ℕ :=
  let m1 := m ||| (m >>> 1)
  let m2 := m1 ||| (m1 >>> 2)
  let m3 := m2 ||| (m2 >>> 4)
  let m4 := m3 ||| (m3 >>> 8)
  m4 ||| (m4 >>> 16)

/-- The rejection loop of rk_interval, given finite fuel; when the fuel is
exhausted the draw is clamped to the bound (the real loop would continue;
65 consecutive rejections have probability below 2^-65, and the clamp
keeps the result in range in every case). -/
def rkIntervalAux : ℕ → ℕ → MTState → ℕ × MTState
  | 0, mx, s =>
      let p := rkRandom s
      (min (p.1 &&& smallMask mx) mx, p.2)
  | f+1, mx, s =>
      let p := rkRandom s
      let v := p.1 &&& smallMask mx
      if v ≤ mx then (v, p.2) else rkIntervalAux f mx p.2

/-- rk_interval(mx): a draw uniform on 0..mx by masked rejection. -/
def rkInterval (mx : ℕ) (s : MTState) : ℕ × MTState :=
  if mx = 0 then (0, s) else rkIntervalAux 64 mx s

/-- Exchange the entries at positions i and j of a list of naturals. -/
def swapL (l : List ℕ) (i j : ℕ) : List ℕ :=
  (l.set i (l.getD j 0)).set j (l.getD i 0)

/-- The numpy shuffle loop: for i from n-1 down to 1, draw j in 0..i and
swap positions i and j. -/
def shuffleFrom : ℕ → List ℕ → MTState → List ℕ × MTState
  | 0, l, s => (l, s)
  | i+1, l, s =>
      let p := rkInterval (i+1) s
      shuffleFrom i (swapL l (i+1) p.1) p.2

/-- numpy permutation(n): shuffle arange(n). -/
def npPermutation (n : ℕ) (s : MTState) : List ℕ × MTState :=
  shuffleFrom (n - 1) (List.range n) s

/-- The row positions rs.choice(n, size=k, replace=False) selects:
the first k entries of the seeded permutation of arange(n). -/
def sampleIndices (n k seed : ℕ) : List ℕ :=
  (npPermutation n (mtInit seed)).1.take k

/-- df.take(locs): the selected rows in selection order. -/
def pandasSampleRows (rows : List Row) (k seed : ℕ) : List Row :=
  (sampleIndices rows.length k seed).map fun i => rows.getD i rowSugary

/-- src/app.py line 231: sample min(2000, len) rows with the fixed seed
42. -/
def plot_sample (df_filtered : DataFrame) : DataFrame :=
  ⟨df_filtered.flagColumnPresent,
   pandasSampleRows df_filtered.rows (min 2000 df_filtered.rows.length) 42⟩

/-- The sampling step as a function of the ambient numpy global RNG state
as well: random_state=42 builds a fresh RandomState inside the call, so
the ambient state is never consulted. -/
def plot_sample_run (globalRng : MTState) (df_filtered : DataFrame) :
    DataFrame :=
  plot_sample df_filtered

/-- The rejection sampler never exceeds its bound. -/
theorem rkIntervalAux_le : ∀ (f mx : ℕ) (s : MTState),
    (rkIntervalAux f mx s).1 ≤ mx := by
  intro f
  induction f with
  | zero => intro mx s; exact min_le_right _ _
  | succ k ih =>
      intro mx s
      simp only [rkIntervalAux]
      split_ifs with h
      · exact h
      · exact ih mx _

/-- rk_interval(mx) lands in 0..mx. -/
theorem rkInterval_le (mx : ℕ) (s : MTState) : (rkInterval mx s).1 ≤ mx := by
  rw [rkInterval]
  split_ifs with h
  · simp [h]
  · exact rkIntervalAux_le _ _ _

/-- Pulling the m-th element of a list to the front while writing a in
its place is a permutation of consing a on. -/
theorem cons_set_perm : ∀ (t : List ℕ) (m : ℕ) (a : ℕ), m < t.length →
    List.Perm (t.getD m 0 :: t.set m a) (a :: t) := by
  intro t
  induction t with
  | nil => intro m a hm; simp at hm
  | cons b t ih =>
      intro m a hm
      match m with
      | 0 =>
          simp only [List.getD_cons_zero, List.set_cons_zero]
          exact List.Perm.swap a b t
      | m'+1 =>
          simp only [List.getD_cons_succ, List.set_cons_succ]
          have h' : m' < t.length := by simpa using hm
          exact ((List.Perm.swap b _ _).trans
            ((ih m' a h').cons b)).trans (List.Perm.swap a b t)

/-- Swapping two in-range positions permutes the list. -/
theorem swapL_perm : ∀ (l : List ℕ) (i j : ℕ),
    i < l.length → j < l.length → List.Perm (swapL l i j) l := by
  intro l
  induction l with
  | nil => intro i j hi _; simp at hi
  | cons a t ih =>
      intro i j hi hj
      match i, j with
      | 0, 0 => simp [swapL]
      | 0, m+1 =>
          have hm : m < t.length := by simpa using hj
          have he : swapL (a :: t) 0 (m+1) = t.getD m 0 :: t.set m a := by
            simp [swapL]
          rw [he]
          exact cons_set_perm t m a hm
      | m+1, 0 =>
          have hm : m < t.length := by simpa using hi
          have he : swapL (a :: t) (m+1) 0 = t.getD m 0 :: t.set m a := by
            simp [swapL]
          rw [he]
          exact cons_set_perm t m a hm
      | i0+1, j0+1 =>
          have he : swapL (a :: t) (i0+1) (j0+1) = a :: swapL t i0 j0 := by
            simp [swapL]
          rw [he]
          exact List.Perm.cons a
            (ih i0 j0 (by simpa using hi) (by simpa using hj))

/-- A swap keeps the length. -/
theorem swapL_length (l : List ℕ) (i j : ℕ) :
    (swapL l i j).length = l.length := by
  simp [swapL]

/-- The Fisher-Yates loop permutes its list. -/
theorem shuffleFrom_perm : ∀ (i : ℕ) (l : List ℕ) (s : MTState),
    i < l.length → List.Perm (shuffleFrom i l s).1 l := by
  intro i
  induction i with
  | zero => intro l s _; simp [shuffleFrom]
  | succ k ih =>
      intro l s h
      simp only [shuffleFrom]
      have hj : (rkInterval (k+1) s).1 ≤ k+1 := rkInterval_le _ _
      have h1 : k < (swapL l (k+1) (rkInterval (k+1) s).1).length := by
        rw [swapL_length]
        omega
      exact (ih _ _ h1).trans
        (swapL_perm l (k+1) (rkInterval (k+1) s).1 h (lt_of_le_of_lt hj h))

/-- numpy permutation(n) is a permutation of arange(n). -/
theorem npPermutation_perm (n : ℕ) (s : MTState) :
    List.Perm (npPermutation n s).1 (List.range n) := by
  rw [npPermutation]
  cases n with
  | zero => simp [shuffleFrom]
  | succ m => exact shuffleFrom_perm m (List.range (m+1)) s (by simp)

/-- Reading a list back through its positions reproduces it. -/
theorem map_getD_range {α : Type} (l : List α) (d : α) :
    (List.range l.length).map (fun i => l.getD i d) = l := by
  apply List.ext_getElem
  · simp
  · intro i h1 h2
    simp only [List.getElem_map, List.getElem_range]
    exact List.getD_eq_getElem l d h2

/-- Two distinguishable rows in a two-row filtered table. -/
def dfPair : DataFrame :=
  ⟨true, [{ rowSugary with product_name := "a" },
          { rowSugary with product_name := "b" }]⟩

/-- Claim C4, counterexample.  For a two-row subset (well under the cap)
the sampler is NOT the identity: pandas sample(n=len, random_state=42)
draws a full permutation, and the seeded Mersenne-Twister permutation of
two elements swaps them, so the rows come back in the order b, a instead
of a, b. -/
theorem claim_C4_counterexample :
    dfPair.rows.map (fun r => r.product_name) = ["a", "b"] ∧
    (plot_sample dfPair).rows.map (fun r => r.product_name) = ["b", "a"] ∧
    (plot_sample dfPair).rows ≠ dfPair.rows := by
  refine ⟨rfl, by decide, fun h => ?_⟩
  have h1 : (plot_sample dfPair).rows.map (fun r => r.product_name)
      = dfPair.rows.map (fun r => r.product_name) := by rw [h]
  rw [show dfPair.rows.map (fun r => r.product_name) = ["a", "b"] from rfl]
    at h1
  have h2 : (plot_sample dfPair).rows.map (fun r => r.product_name)
      = ["b", "a"] := by decide
  rw [h2] at h1
  exact absurd h1 (by decide)

/-- Claim C4 (amended): for a filtered subset of at most 2000 rows the
sampler keeps every row exactly once — the output is a permutation of the
subset of the same length, with the flag-column marker untouched — but it
is a seeded shuffle, not the identity: the rows are generally returned in
a different order. -/
theorem claim_C4_sample_small (df : DataFrame)
    (h : df.rows.length ≤ 2000) :
    (plot_sample df).rows.Perm df.rows ∧
    (plot_sample df).rows.length = df.rows.length ∧
    (plot_sample df).flagColumnPresent = df.flagColumnPresent := by
  have hmin : min 2000 df.rows.length = df.rows.length := min_eq_right h
  have hp : List.Perm (npPermutation df.rows.length (mtInit 42)).1
      (List.range df.rows.length) := npPermutation_perm _ _
  have hlen : (npPermutation df.rows.length (mtInit 42)).1.length
      = df.rows.length := by
    rw [hp.length_eq, List.length_range]
  have hidx : sampleIndices df.rows.length (min 2000 df.rows.length) 42
      = (npPermutation df.rows.length (mtInit 42)).1 := by
    rw [sampleIndices, hmin, List.take_of_length_le (le_of_eq hlen)]
  have hrows : (plot_sample df).rows
      = (npPermutation df.rows.length (mtInit 42)).1.map
          (fun i => df.rows.getD i rowSugary) := by
    rw [plot_sample, pandasSampleRows, hidx]
  refine ⟨?_, ?_, rfl⟩
  · rw [hrows]
    have h2 := hp.map (fun i => df.rows.getD i rowSugary)
    rw [map_getD_range] at h2
    exact h2
  · rw [hrows, List.length_map, hlen]

/-- Claim C4 witness: the permutation theorem at the concrete two-row
table (where the sampler output is the swap, a genuine permutation). -/
theorem claim_C4_witness :
    dfPair.rows.length ≤ 2000 ∧ (plot_sample dfPair).rows.Perm dfPair.rows := by
  exact ⟨by decide, (claim_C4_sample_small dfPair (by decide)).1⟩

/-- Claim C7: on a filtered subset of more than 2000 rows the sampler
returns exactly 2000 rows, drawn without replacement (the selected
positions are distinct and in range, and every returned row is a row of
the subset), and it is deterministic as a two-run property: the fixed
seed 42 makes any two invocations — whatever the ambient numpy global RNG
state of each run — bit-identical. -/
theorem claim_C7_sampler_determinism (g1 g2 : MTState) (df : DataFrame)
    (h : 2000 < df.rows.length) :
    plot_sample_run g1 df = plot_sample_run g2 df ∧
    (plot_sample_run g1 df).rows.length = 2000 ∧
    (sampleIndices df.rows.length (min 2000 df.rows.length) 42).Nodup ∧
    (∀ i ∈ sampleIndices df.rows.length (min 2000 df.rows.length) 42,
      i < df.rows.length) ∧
    (∀ r ∈ (plot_sample_run g1 df).rows, r ∈ df.rows) := by
  have hmin : min 2000 df.rows.length = 2000 := min_eq_left h.le
  have hp : List.Perm (npPermutation df.rows.length (mtInit 42)).1
      (List.range df.rows.length) := npPermutation_perm _ _
  have hlen : (npPermutation df.rows.length (mtInit 42)).1.length
      = df.rows.length := by
    rw [hp.length_eq, List.length_range]
  have hmem : ∀ i ∈ sampleIndices df.rows.length (min 2000 df.rows.length) 42,
      i < df.rows.length := by
    intro i hi
    rw [sampleIndices] at hi
    have h2 : i ∈ (npPermutation df.rows.length (mtInit 42)).1 :=
      (List.take_sublist _ _).subset hi
    have h3 : i ∈ List.range df.rows.length := hp.subset h2
    exact List.mem_range.mp h3
  refine ⟨rfl, ?_, ?_, hmem, ?_⟩
  · rw [plot_sample_run, plot_sample, pandasSampleRows, List.length_map,
      sampleIndices, List.length_take, hlen, hmin]
    omega
  · rw [sampleIndices]
    exact (List.take_sublist _ _).nodup
      (hp.nodup_iff.mpr (List.nodup_range _))
  · intro r hr
    rw [plot_sample_run, plot_sample, pandasSampleRows] at hr
    obtain ⟨i, hi, rfl⟩ := List.mem_map.mp hr
    have hlt : i < df.rows.length := hmem i hi
    rw [List.getD_eq_getElem _ _ hlt]
    exact List.getElem_mem hlt

/-- A 2001-row table exceeding the cap. -/
def dfBig : DataFrame := ⟨true, List.replicate 2001 rowHealthy⟩

/-- Claim C7 witness: the determinism theorem at the 2001-row table, with
two different ambient RNG states. -/
theorem claim_C7_witness :
    2000 < dfBig.rows.length ∧
    plot_sample_run (mtInit 0) dfBig = plot_sample_run (mtInit 1) dfBig := by
  have h : 2000 < dfBig.rows.length := by simp [dfBig]
  exact ⟨h, (claim_C7_sampler_determinism (mtInit 0) (mtInit 1) dfBig h).1⟩

end MarketGap
